import Mathlib

/-!
Verification of the BLE client (`src/python/bluetooth.py`) and the LionChief
command protocol (`src/python/lionchief.py`) of the Pi-Train-Switching
repository, via a shallow embedding in Lean 4.

Modelling conventions:
* A Python method that can raise is embedded as a function returning
  `Option PyError × σ` (the `Option PyError` is `some e` when the method
  raises `e`, and the `σ` component is the post-state / observable output).
* Machine bytes are embedded as `Int` (Python's unbounded `int`) with
  explicit range checks where the code performs them (`bytes(...)`).
* The repository runs under Python 3 (f-strings appear throughout
  `lionchief.py`, `app.py` and `bluetooth.py` itself); where the code uses a
  Python-2-only construct, the embedding reflects the Python 3 runtime
  behaviour (the raised error), with the intended behaviour modelled
  separately under a clearly marked name.
-/

/-- The exception kinds that the modelled code can raise.  `notConnected`,
`notificationTimeout` and `noResponse` are the classes declared at the top of
`bluetooth.py`; `valueError`, `nameError`, `keyError` and `attributeError`
are the corresponding Python builtins. -/
inductive PyError where
  | notConnected
  | notificationTimeout
  | noResponse
  | valueError
  | nameError
  | keyError
  | attributeError
  deriving Repr, DecidableEq

/-! ## LionChief command framing (`lionchief.py`, `_send_cmd`) -/

/-- The `while checksum < 0: checksum += 256` loop of
`LionChief._send_cmd` (lionchief.py lines 67-68). -/
def addUntilNonneg (c : Int) : Int :=
  if c < 0 then addUntilNonneg (c + 256) else c
termination_by (-c).toNat
decreasing_by
  simp_wf
  omega

theorem addUntilNonneg_nonneg (c : Int) : 0 ≤ addUntilNonneg c := by
  rw [addUntilNonneg]
  split
  · exact addUntilNonneg_nonneg (c + 256)
  · omega
termination_by (-c).toNat
decreasing_by
  simp_wf
  omega

theorem addUntilNonneg_emod (c : Int) : addUntilNonneg c % 256 = c % 256 := by
  rw [addUntilNonneg]
  split
  · rw [addUntilNonneg_emod (c + 256)]
    omega
  · rfl
termination_by (-c).toNat
decreasing_by
  simp_wf
  omega

theorem addUntilNonneg_lt (c : Int) (h : c < 256) : addUntilNonneg c < 256 := by
  rw [addUntilNonneg]
  split
  · exact addUntilNonneg_lt (c + 256) (by omega)
  · exact h
termination_by (-c).toNat
decreasing_by
  simp_wf
  omega

theorem addUntilNonneg_of_nonneg (c : Int) (h : 0 ≤ c) : addUntilNonneg c = c := by
  rw [addUntilNonneg]
  split
  · omega
  · rfl

/-- `LionChief._send_cmd` (lionchief.py lines 61-71).  When `connected` the
method computes `checksum = 256 - sum(values)` (normalised by the
`while checksum < 0` loop), prepends the `0` byte, appends the checksum and
calls `self._blue_connection.char_write(0x25, bytes(values), True)`.
`bytes(...)` raises `ValueError` when any element is outside `[0, 256)`.
`writeOk` models whether the underlying confirmed write succeeds; on failure
`char_write` raises `NoResponseError` after the bytes went out.  When not
connected the method silently does nothing.  The second component is the
list of confirmed-write actions `(handle, buffer)` issued. -/
def send_cmd (connected writeOk : Bool) (values : List Int) :
    Option PyError × List (Nat × List Int) :=
  if connected then
    let checksum := addUntilNonneg (256 - values.sum)
    let buffer : List Int := 0 :: (values ++ [checksum])
    if buffer.all (fun b => 0 ≤ b && b < 256) then
      if writeOk then (none, [(0x25, buffer)])
      else (some .noResponse, [(0x25, buffer)])
    else (some .valueError, [])
  else (none, [])

example : send_cmd true true [0x45, 5] = (none, [(0x25, [0, 0x45, 5, 182])]) := by
  simp [send_cmd, addUntilNonneg]

/-- Successful path of `_send_cmd`: when every input byte is in range and the
byte sum is positive, the checksum is a genuine byte and the framed buffer is
written to handle 0x25. -/
theorem send_cmd_ok (values : List Int) (h : ∀ b ∈ values, 0 ≤ b ∧ b < 256)
    (hsum : 0 < values.sum) :
    send_cmd true true values =
      (none, [(0x25, 0 :: (values ++ [addUntilNonneg (256 - values.sum)]))]) := by
  have hc0 : 0 ≤ addUntilNonneg (256 - values.sum) := addUntilNonneg_nonneg _
  have hc1 : addUntilNonneg (256 - values.sum) < 256 :=
    addUntilNonneg_lt _ (by omega)
  have hall : ((0 : Int) :: (values ++ [addUntilNonneg (256 - values.sum)])).all
      (fun b => 0 ≤ b && b < 256) = true := by
    simp only [List.all_eq_true, List.mem_cons, List.mem_append,
      List.mem_singleton]
    intro b hb
    rcases hb with rfl | hb | rfl | hnil
    · decide
    · have := h b hb
      simp only [Bool.and_eq_true, decide_eq_true_eq]
      omega
    · simp only [Bool.and_eq_true, decide_eq_true_eq]
      omega
    · cases hnil
  simp only [send_cmd, if_true, hall]

/-- C1, counterexample: with opcode `0` and empty payload the byte sum is 0,
so the computed checksum is `256 - 0 = 256` (the `while checksum < 0` loop
does not reduce it); `bytes([0, 0, 256])` then raises `ValueError` and
nothing is written, contradicting the claim's universal quantification over
all opcode bytes. -/
theorem checksum_framing_counterexample :
    send_cmd true true [0] = (some PyError.valueError, []) := by
  have h256 : addUntilNonneg 256 = 256 := addUntilNonneg_of_nonneg 256 (by omega)
  simp [send_cmd, h256]

/-- C1 (amended): for every opcode byte and payload byte list whose byte sum
is positive, `_send_cmd` when connected writes `[0x00, opcode, payload..., c]`
to handle 0x25 where the checksum byte `c` makes the whole buffer sum to
0 mod 256; in particular opcode 0x45 with payload [5] yields [0, 69, 5, 182].
(The original claim fails only at a zero byte sum, where the checksum
computes to 256 and `bytes(...)` raises `ValueError`.) -/
theorem checksum_framing_amended :
    (∀ (opcode : Int) (payload : List Int),
      0 ≤ opcode → opcode < 256 →
      (∀ b ∈ payload, 0 ≤ b ∧ b < 256) →
      0 < opcode + payload.sum →
      ∃ c : Int, 0 ≤ c ∧ c < 256 ∧
        send_cmd true true (opcode :: payload) =
          (none, [(0x25, 0 :: opcode :: (payload ++ [c]))]) ∧
        (0 + opcode + payload.sum + c) % 256 = 0)
    ∧ send_cmd true true [0x45, 5] = (none, [(0x25, [0, 69, 5, 182])]) := by
  constructor
  · intro opcode payload h0 h1 hp hsum
    have hsum' : 0 < (opcode :: payload).sum := by
      simp only [List.sum_cons]
      omega
    refine ⟨addUntilNonneg (256 - (opcode :: payload).sum), addUntilNonneg_nonneg _,
      addUntilNonneg_lt _ (by simp only [List.sum_cons]; omega), ?_, ?_⟩
    · rw [send_cmd_ok (opcode :: payload) ?_ hsum']
      · rfl
      · intro b hb
        rw [List.mem_cons] at hb
        rcases hb with rfl | hb
        · omega
        · exact hp b hb
    · have hmod := addUntilNonneg_emod (256 - (opcode :: payload).sum)
      simp only [List.sum_cons] at hmod ⊢
      omega
  · have h182 : addUntilNonneg (256 - ([0x45, 5] : List Int).sum) = 182 := by
      rw [show (256 - ([0x45, 5] : List Int).sum) = 182 by decide]
      exact addUntilNonneg_of_nonneg 182 (by omega)
    rw [send_cmd_ok [0x45, 5] (by decide) (by decide)]
    rw [h182]
    rfl

/-- Witness for C1's amended theorem, at opcode 0x45 and payload [5]. -/
theorem checksum_framing_witness :
    ∃ c : Int, 0 ≤ c ∧ c < 256 ∧
      send_cmd true true [0x45, 5] =
        (none, [(0x25, 0 :: (0x45 : Int) :: ([5] ++ [c]))]) ∧
      (0 + 0x45 + ([(5 : Int)] : List Int).sum + c) % 256 = 0 :=
  checksum_framing_amended.1 0x45 [5] (by norm_num) (by norm_num)
    (by decide) (by norm_num)

/-! ## BTLEDevice state (`bluetooth.py`) -/

/-- Association-list update: replace the binding of `k` or append it. -/
def setAssoc {α : Type} (k : Nat) (v : α) : List (Nat × α) → List (Nat × α)
  | [] => [(k, v)]
  | (k', v') :: rest =>
      if k = k' then (k, v) :: rest else (k', v') :: setAssoc k v rest

/-- The mutable attributes set up by `BTLEDevice.__init__` (bluetooth.py
lines 66-92), together with a log of the `char-write` commands issued to the
gatttool session (the observable output of the model).  `thread` mirrors
`self._thread`; the constructor sets it to `None` (line 74) and starts the
listener through a *local* variable `thread` (lines 90-92), so it is never
reassigned. -/
structure DeviceState where
  subscribedHandlers : List (Nat × List Nat) := []
  callbacks : List (Nat × List Nat) := []
  running : Bool := true
  thread : Option Unit := none
  connected : Bool := false
  writes : List (Nat × List Nat) := []
  deriving Repr, DecidableEq

/-- The state produced by `BTLEDevice.__init__`. -/
def initState : DeviceState := {}

/-- The registered callback set for a handle (`self._callbacks[handle]`,
a `defaultdict(set)`: a missing key reads as the empty set). -/
def getCallbacks (st : DeviceState) (handle : Nat) : List Nat :=
  (st.callbacks.lookup handle).getD []

/-- Python `set.add`: insert the callback if not already present. -/
def addCallback (st : DeviceState) (handle cb : Nat) : DeviceState :=
  let s := getCallbacks st handle
  { st with callbacks := setAssoc handle (if cb ∈ s then s else s ++ [cb]) st.callbacks }

/-- `BTLEDevice.char_write` (bluetooth.py lines 116-144): raises
`NotConnectedError` when not connected; otherwise sends the
`char-write-req/cmd` line (logged in `writes`) and, when `wait` is set,
awaits the confirmation.  `confirmOk` models whether the confirmation line
arrives before the timeout; when it does not, the `NotificationTimeout` is
converted to `NoResponseError`. -/
def char_write (confirmOk : Bool) (handle : Nat) (value : List Nat)
    (wait : Bool) (st : DeviceState) : Option PyError × DeviceState :=
  if st.connected then
    let st1 := { st with writes := st.writes ++ [(handle, value)] }
    if wait && !confirmOk then (some .noResponse, st1) else (none, st1)
  else (some .notConnected, st)

/-- `BTLEDevice.subscribe` as written (bluetooth.py lines 193-232): after the
`type_ not in {0, 1, 2}` check, line 219 evaluates the conditional
`... if _type == 0 else ...`.  The name `_type` is undefined (the parameter
is `type_`), so every call with a valid `type_` raises `NameError` before
acquiring the lock; no callback is registered and no write is issued. -/
def subscribe (handle : Nat) (callback : Option Nat) (type_ : Int)
    (st : DeviceState) : Option PyError × DeviceState :=
  if type_ = 0 ∨ type_ = 1 ∨ type_ = 2 then (some .nameError, st)
  else (some .valueError, st)

/-- The `char_write(control_handle, value, wait_for_response=True)` followed
by `self._subscribed_handlers[handle] = value` step shared by the subscribe
and unsubscribe paths (bluetooth.py lines 231-232 and 254-255): the
recording happens only when the write returns without raising. -/
def writeThenRecord (confirmOk : Bool) (control handle : Nat) (value : List Nat)
    (st1 : DeviceState) : Option PyError × DeviceState :=
  match char_write confirmOk control value true st1 with
  | (some e, st2) => (some e, st2)
  | (none, st2) =>
      (none, { st2 with subscribedHandlers := setAssoc handle value st2.subscribedHandlers })

/-- `BTLEDevice.subscribe` with the naming defect repaired (`_type` read as
the parameter `type_`), the reading the docstring of `subscribe` and the
spec both describe.  Modelled from the spec: the repository's `src` only
contains the defective line, so the merge rule below follows the source
structure of lines 217-232 with `_type` replaced by `type_`. -/
def subscribe_fixed (confirmOk : Bool) (handle : Nat) (callback : Option Nat)
    (type_ : Int) (st : DeviceState) : Option PyError × DeviceState :=
  if type_ = 0 ∨ type_ = 1 ∨ type_ = 2 then
    let this : List Nat := if type_ = 0 then [1, 0] else if type_ = 1 then [2, 0] else [3, 0]
    let other : List Nat := if type_ = 0 then [2, 0] else if type_ = 1 then [1, 0] else [3, 0]
    let both : List Nat := [3, 0]
    let st1 := match callback with
      | some cb => addCallback st handle cb
      | none => st
    let previous := st1.subscribedHandlers.lookup handle
    if previous = some this ∨ previous = some both then (none, st1)
    else
      let write := if previous = some other then both else this
      writeThenRecord confirmOk (handle + 1) handle write st1
  else (some .valueError, st)

/-- `BTLEDevice.unsubscribe` (bluetooth.py lines 234-255).  When a callback
is supplied, `self._callbacks[handle].remove(callback)` is Python's
`set.remove`, which raises `KeyError` when the callback is not in the set;
only then does the method fall through to the control write of `[0, 0]`. -/
def unsubscribe (confirmOk : Bool) (handle : Nat) (callback : Option Nat)
    (st : DeviceState) : Option PyError × DeviceState :=
  let proceed := fun (st1 : DeviceState) =>
    if st1.subscribedHandlers.lookup handle ≠ some [0, 0] then
      writeThenRecord confirmOk (handle + 1) handle [0, 0] st1
    else (none, st1)
  match callback with
  | some cb =>
      let s := getCallbacks st handle
      if cb ∈ s then
        proceed { st with callbacks := setAssoc handle (s.erase cb) st.callbacks }
      else (some .keyError, st)
  | none => proceed st

/-! ## Session lines and the expectation loop (`bluetooth.py`, `_expect`) -/

/-- The ordered candidate list built at bluetooth.py lines 277-283 for a
given expected pattern. -/
def expectCandidates (expected : String) : List String :=
  [expected,
   "Notification handle = .*? \r",
   "Indication   handle = .*? \r",
   ".*Invalid file descriptor.*",
   ".*Disconnected\r"]

/-- A session line as classified by `pexpect` against the candidate list of
`_expect`: the expected response, a notification/indication line carrying a
handle and a value, or one of the two disconnect lines. -/
inductive SessLine where
  | expectedResp
  | notifLine (handle : Nat) (value : List Nat)
  | indicLine (handle : Nat) (value : List Nat)
  | invalidFd
  | disconnLine
  deriving Repr, DecidableEq

/-- `BTLEDevice._handle_notification` as written (bluetooth.py line 309):
the first statement is `string.split(msg.strip(), maxsplit=5)`, and under
Python 3 the `string` module has no `split` function, so the call raises
`AttributeError` before anything is parsed and before any callback can run.
The second component is the list of callback invocations `(cb, handle,
value)` performed — always empty. -/
def handle_notification (st : DeviceState) (msg : String) :
    Option PyError × List (Nat × Nat × List Nat) :=
  (some .attributeError, [])

/-- The dispatch step of `_handle_notification` (bluetooth.py lines
310-316) that the `string.split` call makes unreachable, under the
Python-2 reading `msg.strip().split(maxsplit=5)` the surrounding code was
written for: every callback registered for the handle is invoked with
`(handle, value)`, and a handle with no callbacks dispatches nothing. -/
def dispatch_model (st : DeviceState) (handle : Nat) (value : List Nat) :
    List (Nat × Nat × List Nat) :=
  (getCallbacks st handle).map (fun cb => (cb, handle, value))

/-- `BTLEDevice._expect` (bluetooth.py lines 257-299) applied to the stream
of classified session lines.  The `while True` loop matches the candidate
list `expectCandidates`:
* index 0 (the expected pattern) breaks out of the loop;
* indices 1-2 call `self._handle_notification(...)`, which under Python 3
  raises `AttributeError` (see `handle_notification`), aborting the loop;
* indices 3-4 set `self._running = False` and raise `NotConnectedError`
  (note: `self._connected` is *not* assigned);
* a `pexpect.TIMEOUT` (no line in time, modelled by the empty stream)
  raises `NotificationTimeout`.
Because every branch leaves the loop on its first iteration, no recursion
remains.  The middle component is the list of callback invocations made. -/
def btle_expect (lines : List SessLine) (st : DeviceState) :
    Option PyError × List (Nat × Nat × List Nat) × DeviceState :=
  match lines with
  | [] => (some .notificationTimeout, [], st)
  | .expectedResp :: _ => (none, [], st)
  | .notifLine h v :: _ =>
      ((handle_notification st ("Notification handle = " ++ toString h)).1,
       (handle_notification st ("Notification handle = " ++ toString h)).2, st)
  | .indicLine h v :: _ =>
      ((handle_notification st ("Indication   handle = " ++ toString h)).1,
       (handle_notification st ("Indication   handle = " ++ toString h)).2, st)
  | .invalidFd :: _ => (some .notConnected, [], { st with running := false })
  | .disconnLine :: _ => (some .notConnected, [], { st with running := false })

/-- `BTLEDevice.stop` (bluetooth.py lines 179-191): always clears
`_running`; only when the gatttool process is still alive does it also
close it and clear `_connected`. -/
def btle_stop (conAlive : Bool) (st : DeviceState) : DeviceState :=
  let st1 := { st with running := false }
  if conAlive then { st1 with connected := false } else st1

/-- `BTLEDevice.connect` (bluetooth.py lines 146-165).  `success` models
whether the session output matches `Connection successful.*\[LE\]>` within
the timeout.  On success `_connected` is set and, if the listener flag
`_running` is false, the code calls `self._thread.run()` — but `_thread` is
`None` forever (see `DeviceState.thread`), so that call raises
`AttributeError`.  On timeout the device is stopped and `NotConnectedError`
is raised. -/
def btle_connect (success conAlive : Bool) (st : DeviceState) :
    Option PyError × DeviceState :=
  if success then
    let st1 := { st with connected := true }
    if st1.running then (none, st1)
    else
      match st1.thread with
      | none => (some .attributeError, st1)
      | some _ => (none, st1)
  else (some .notConnected, btle_stop conAlive st)

/-! ## Claims about subscribe, unsubscribe, _expect, _handle_notification -/

/-- C2: evaluating `subscribe` as written on the claim's first step (fresh
connected device, `subscribe(h, cb, Notify)`): line 219's reference to the
undefined name `_type` raises `NameError`; no write `[1, 0]` is issued to
`h + 1` and no callback is recorded, contrary to the claim. -/
theorem subscribe_nameerror_codebug :
    subscribe 0x25 (some 1) 0 { initState with connected := true } =
      (some PyError.nameError, { initState with connected := true }) := by
  decide

/-- The merge rule of the claim does hold for `subscribe_fixed`, the reading
with the `_type`/`type_` naming defect repaired: from no recorded
subscription, Notify writes [1,0] to h+1; a further Indicate writes [3,0]
(merge to Both); a further Notify writes nothing; the callback is recorded
in every case. -/
def mergeState1 : DeviceState :=
  { connected := true, writes := [(10, [1, 0])],
    subscribedHandlers := [(9, [1, 0])], callbacks := [(9, [1])] }

def mergeState2 : DeviceState :=
  { connected := true, writes := [(10, [1, 0]), (10, [3, 0])],
    subscribedHandlers := [(9, [3, 0])], callbacks := [(9, [1, 2])] }

def mergeState3 : DeviceState :=
  { connected := true, writes := [(10, [1, 0]), (10, [3, 0])],
    subscribedHandlers := [(9, [3, 0])], callbacks := [(9, [1, 2, 3])] }

theorem subscribe_fixed_merge_scenario :
    subscribe_fixed true 9 (some 1) 0 { initState with connected := true } =
      (none, mergeState1)
  ∧ subscribe_fixed true 9 (some 2) 1 mergeState1 = (none, mergeState2)
  ∧ subscribe_fixed true 9 (some 3) 0 mergeState2 = (none, mergeState3) := by
  refine ⟨by decide, by decide, by decide⟩

/-- C3: the candidate list is indeed ordered
[expected, notification, indication, disconnect patterns], but when a
notification line matches before the expected response, `_expect` hands it
to `_handle_notification`, which raises `AttributeError` (Python-3
`string.split`), so the wait loop aborts instead of dispatching the event
and repeating. -/
theorem expect_interleaving_codebug :
    expectCandidates "Characteristic value was written successfully" =
      ["Characteristic value was written successfully",
       "Notification handle = .*? \r",
       "Indication   handle = .*? \r",
       ".*Invalid file descriptor.*",
       ".*Disconnected\r"]
  ∧ btle_expect [SessLine.notifLine 0x2e [84, 7], SessLine.expectedResp]
      { initState with connected := true } =
      (some PyError.attributeError, [], { initState with connected := true }) :=
  ⟨rfl, rfl⟩

/-- C6, counterexample: a disconnect line matched during a wait raises
`NotConnectedError`, but the device's connection state flag `_connected`
remains `true` — `_expect` only clears `_running` (bluetooth.py lines
291-296) — so the client does not transition to Disconnected as claimed. -/
theorem expect_disconnect_counterexample :
    (btle_expect [SessLine.disconnLine] { initState with connected := true }).1 =
      some PyError.notConnected
  ∧ (btle_expect [SessLine.disconnLine]
      { initState with connected := true }).2.2.connected = true :=
  ⟨rfl, rfl⟩

/-- C6 (amended): whenever a wait matches a disconnect or
invalid-file-descriptor line instead of the expected pattern, the exchange
fails with `NotConnectedError` and the listener flag `_running` is cleared,
but the `_connected` flag is left unchanged — discovery of the Disconnected
state through `_connected` is left to `stop()` or a later caller. -/
theorem expect_disconnect_amended (st : DeviceState) (rest : List SessLine) :
    btle_expect (SessLine.disconnLine :: rest) st =
      (some PyError.notConnected, [], { st with running := false })
  ∧ btle_expect (SessLine.invalidFd :: rest) st =
      (some PyError.notConnected, [], { st with running := false })
  ∧ ({ st with running := false } : DeviceState).connected = st.connected :=
  ⟨rfl, rfl, rfl⟩

/-- C7, counterexample: unsubscribing a callback that is not registered for
the handle raises `KeyError` (Python's `set.remove`), contrary to the
claimed no-op. -/
theorem unsubscribe_keyerror_counterexample :
    unsubscribe true 5 (some 7) { initState with connected := true } =
      (some PyError.keyError, { initState with connected := true }) := by
  decide

/-- C7 (amended): for every handle and every callback not currently
registered for it, `unsubscribe(handle, callback)` raises `KeyError` before
any mutation, leaving the state (in particular the callback set) unchanged;
it is not the claimed silent no-op. -/
theorem unsubscribe_unregistered_amended (confirmOk : Bool) (st : DeviceState)
    (handle cb : Nat) (h : cb ∉ getCallbacks st handle) :
    unsubscribe confirmOk handle (some cb) st = (some PyError.keyError, st) := by
  simp [unsubscribe, h]

/-- Witness for C7's amended theorem at a concrete state and callback. -/
theorem unsubscribe_unregistered_witness :
    (7 : Nat) ∉ getCallbacks initState 5 ∧
    unsubscribe true 5 (some 7) initState = (some PyError.keyError, initState) :=
  ⟨by decide, unsubscribe_unregistered_amended true initState 5 7 (by decide)⟩

/-- C8: on any notification line — here one for a handle with no registered
callbacks — `_handle_notification` raises `AttributeError` at its first
statement (`string.split` does not exist in Python 3), so the line is not
parsed and no callback is ever invoked, contrary to the claimed
parse-and-dispatch behaviour. -/
theorem notification_handler_codebug :
    handle_notification { initState with connected := true }
        "Notification handle = 0x0025 value: 54 07 0f 00 00" =
      (some PyError.attributeError, [])
  ∧ handle_notification
        { initState with connected := true, callbacks := [(0x25, [1, 2])] }
        "Notification handle = 0x0025 value: 54 07 0f 00 00" =
      (some PyError.attributeError, []) :=
  ⟨rfl, rfl⟩

/-- The dispatch logic the `string.split` call makes unreachable does have
the claimed shape: zero registered callbacks produce zero invocations, and
every registered callback is invoked with `(handle, value)`. -/
theorem dispatch_model_spec (st : DeviceState) (h : Nat) (v : List Nat) :
    (getCallbacks st h = [] → dispatch_model st h v = [])
  ∧ ∀ cb ∈ getCallbacks st h, (cb, h, v) ∈ dispatch_model st h v := by
  constructor
  · intro he
    simp [dispatch_model, he]
  · intro cb hcb
    exact List.mem_map_of_mem _ hcb

/-! ## LionChief._set_speed (C9) -/

/-- `LionChief._set_speed` (lionchief.py lines 73-76): calls
`_send_cmd([0x45, speed])` and then assigns `self.current_speed = speed`
unconditionally — also when `_send_cmd` silently did nothing because the
client is not connected.  The assignment is skipped only when `_send_cmd`
raises.  Returns (raised error, new `current_speed`, confirmed writes). -/
def set_speed (connected writeOk : Bool) (speed cur : Int) :
    Option PyError × Int × List (Nat × List Int) :=
  match send_cmd connected writeOk [0x45, speed] with
  | (none, sent) => (none, speed, sent)
  | (some e, _) => (some e, cur, [])

/-- C9, counterexample: with the client not connected and `current_speed = 0`,
`_set_speed(3)` sends no command yet sets `current_speed` to 3, contradicting
the claim that an unsent command leaves `current_speed` unchanged. -/
theorem set_speed_counterexample :
    set_speed false true 3 0 = (none, 3, []) ∧ (3 : Int) ≠ 0 := by
  constructor
  · rfl
  · decide

/-- C9 (amended): `current_speed` is set to the requested speed whenever
`_send_cmd` returns without raising — including the not-connected case, in
which no command is sent at all; it is left unchanged only when the
underlying write raises. -/
theorem set_speed_amended (connected writeOk : Bool) (speed cur : Int) :
    ((set_speed connected writeOk speed cur).1 = none →
      (set_speed connected writeOk speed cur).2.1 = speed)
  ∧ set_speed false writeOk speed cur = (none, speed, [])
  ∧ ((set_speed connected writeOk speed cur).1 ≠ none →
      (set_speed connected writeOk speed cur).2.1 = cur) := by
  refine ⟨?_, ?_, ?_⟩
  · rcases h : send_cmd connected writeOk [0x45, speed] with ⟨e, sent⟩
    cases e <;> simp [set_speed, h]
  · rfl
  · rcases h : send_cmd connected writeOk [0x45, speed] with ⟨e, sent⟩
    cases e <;> simp [set_speed, h]

/-- Witness for C9's amended theorem: connected with a confirmed write,
`_set_speed(3)` from speed 0 updates `current_speed` to 3. -/
theorem set_speed_witness :
    (set_speed true true 3 0).2.1 = 3 ∧ set_speed false true 7 1 = (none, 7, []) :=
  ⟨(set_speed_amended true true 3 0).1
      (by simp [set_speed, send_cmd, addUntilNonneg]),
   (set_speed_amended false true 7 1).2.1⟩

/-! ## LionChief.ramp (C4) -/

/-- The `while speed != end_speed` loop of `LionChief.ramp` (lionchief.py
lines 85-91): the list of arguments passed to `_set_speed` by the loop
body, stepping by -1 when above and +1 when below the target. -/
def rampLoop (speed endSpeed : Int) : List Int :=
  if speed = endSpeed then []
  else speed :: rampLoop (if speed > endSpeed then speed - 1 else speed + 1) endSpeed
termination_by (speed - endSpeed).natAbs
decreasing_by
  simp_wf
  split <;> omega

/-- The full sequence of `_set_speed` arguments issued by `ramp` from
current speed `s` to target `t`: the loop speeds followed by the explicit
final `_set_speed(end_speed)` (lionchief.py line 92). -/
def rampSpeeds (s t : Int) : List Int :=
  rampLoop s t ++ [t]

/-- One observable action of `ramp`: toggling the bell effect or issuing a
`_set_speed`. -/
inductive RampEvent where
  | bell (b : Bool)
  | speed (v : Int)
  deriving Repr, DecidableEq

/-- `LionChief.ramp` (lionchief.py lines 81-93) as its sequence of
observable actions: bell on, the `_set_speed` calls, bell off. -/
def rampEvents (s t : Int) : List RampEvent :=
  RampEvent.bell true :: ((rampSpeeds s t).map RampEvent.speed ++ [RampEvent.bell false])

/-- Modelled from the spec's words ("issues setSpeed for every integer from
s toward t stepping by plus-or-minus 1 so that each intermediate speed is
visited exactly once in monotonic order ... finishes by sending t
explicitly"): the monotonic enumeration of every integer from `s` to `t`
inclusive. -/
def specRampSeq (s t : Int) : List Int :=
  if s ≤ t then (List.range ((t - s).toNat + 1)).map (fun i : Nat => s + (i : Int))
  else (List.range ((s - t).toNat + 1)).map (fun i : Nat => s - (i : Int))

theorem rampLoop_asc (n : Nat) : ∀ s t : Int, s ≤ t → (t - s).toNat = n →
    rampLoop s t = (List.range n).map (fun i : Nat => s + (i : Int)) := by
  induction n with
  | zero =>
    intro s t hle h0
    have hst : s = t := by omega
    subst hst
    rw [rampLoop]
    simp
  | succ n ih =>
    intro s t hle hn
    have hne : s ≠ t := by omega
    have hgt : ¬ s > t := by omega
    rw [rampLoop, if_neg hne, if_neg hgt]
    rw [ih (s + 1) t (by omega) (by omega)]
    have hf : ((fun i : Nat => s + (i : Int)) ∘ Nat.succ) =
        fun i : Nat => s + 1 + (i : Int) := by
      funext i
      simp only [Function.comp]
      push_cast
      ring
    rw [List.range_succ_eq_map, List.map_cons, List.map_map, hf]
    norm_num

theorem rampLoop_desc (n : Nat) : ∀ s t : Int, t ≤ s → (s - t).toNat = n →
    rampLoop s t = (List.range n).map (fun i : Nat => s - (i : Int)) := by
  induction n with
  | zero =>
    intro s t hle h0
    have hst : s = t := by omega
    subst hst
    rw [rampLoop]
    simp
  | succ n ih =>
    intro s t hle hn
    have hne : s ≠ t := by omega
    have hgt : s > t := by omega
    rw [rampLoop, if_neg hne, if_pos hgt]
    rw [ih (s - 1) t (by omega) (by omega)]
    have hf : ((fun i : Nat => s - (i : Int)) ∘ Nat.succ) =
        fun i : Nat => s - 1 - (i : Int) := by
      funext i
      simp only [Function.comp]
      push_cast
      ring
    rw [List.range_succ_eq_map, List.map_cons, List.map_map, hf]
    norm_num

/-- The code's ramp sequence equals the spec's monotonic enumeration. -/
theorem rampSpeeds_eq_spec (s t : Int) : rampSpeeds s t = specRampSeq s t := by
  unfold rampSpeeds specRampSeq
  by_cases h : s ≤ t
  · rw [if_pos h, rampLoop_asc ((t - s).toNat) s t h rfl, List.range_succ,
      List.map_append]
    simp only [List.map_cons, List.map_nil]
    congr 2
    omega
  · have h' : t ≤ s := by omega
    rw [if_neg h, rampLoop_desc ((s - t).toNat) s t h' rfl, List.range_succ,
      List.map_append]
    simp only [List.map_cons, List.map_nil]
    congr 2
    omega

/-- C4: `ramp` turns the bell on, issues `_set_speed` for every integer from
the current speed `s` toward the target `t` in monotonic order with no
repeats and no skipped values (the sequence equals the spec's enumeration
and is duplicate-free, starting at `s`), finishes by sending `t` explicitly
(the last issued speed is `t`), and turns the bell off; from 0 to 3 the
sequence is 0,1,2,3 and from 5 to 2 it is 5,4,3,2. -/
theorem ramp_monotonicity (s t : Int) :
    rampEvents s t =
      RampEvent.bell true :: ((rampSpeeds s t).map RampEvent.speed ++ [RampEvent.bell false])
  ∧ rampSpeeds s t = specRampSeq s t
  ∧ (rampSpeeds s t).Nodup
  ∧ (rampSpeeds s t).head? = some s
  ∧ (rampSpeeds s t).getLast? = some t
  ∧ rampSpeeds 0 3 = [0, 1, 2, 3]
  ∧ rampSpeeds 5 2 = [5, 4, 3, 2] := by
  refine ⟨rfl, rampSpeeds_eq_spec s t, ?_, ?_, ?_, ?_, ?_⟩
  · rw [rampSpeeds_eq_spec]
    unfold specRampSeq
    split
    · exact List.Nodup.map (fun a b hab => by omega) (List.nodup_range _)
    · exact List.Nodup.map (fun a b hab => by omega) (List.nodup_range _)
  · rw [rampSpeeds_eq_spec]
    unfold specRampSeq
    split
    · rw [List.range_succ_eq_map, List.map_cons]
      norm_num
    · rw [List.range_succ_eq_map, List.map_cons]
      norm_num
  · unfold rampSpeeds
    rw [List.getLast?_concat]
  · rw [rampSpeeds_eq_spec]
    decide
  · rw [rampSpeeds_eq_spec]
    decide

/-! ## LionChief.connect retry loop (C5) -/

/-- The `while connected == False and i < max_retries` loop of
`LionChief.connect` (lionchief.py lines 41-55), driven by the remaining
retry budget (`fuel = max_retries - i`).  `oracle i` tells whether the
`i`-th attempt (the `BTLEDevice` construction plus its `connect()`)
succeeds; a failing attempt is caught, reported once to `logger.error`,
and the loop continues.  Returns (attempts performed, failures reported,
final `connected`). -/
def connectLoop (oracle : Nat → Bool) : Nat → Nat → Nat × Nat × Bool
  | 0, _ => (0, 0, false)
  | fuel + 1, i =>
      if oracle i then (1, 0, true)
      else
        let r := connectLoop oracle fuel (i + 1)
        (r.1 + 1, r.2.1 + 1, r.2.2)

/-- `LionChief.connect(max_retries)` (lionchief.py lines 31-59): runs the
retry loop from attempt 0 and stores the final flag into
`self.__connected`.  Exceptions inside the loop are caught, so the method
itself never raises (modelled by its total return type). -/
def lionchief_connect (oracle : Nat → Bool) (maxRetries : Nat) : Nat × Nat × Bool :=
  connectLoop oracle maxRetries 0

theorem connectLoop_allFail (oracle : Nat → Bool) (h : ∀ j, oracle j = false) :
    ∀ fuel i, connectLoop oracle fuel i = (fuel, fuel, false) := by
  intro fuel
  induction fuel with
  | zero => intro i; rfl
  | succ n ih =>
    intro i
    simp [connectLoop, h i, ih (i + 1)]

theorem connectLoop_firstSuccess (oracle : Nat → Bool) (k : Nat)
    (hk : ∀ j, j < k → oracle j = false) (hks : oracle k = true) :
    ∀ fuel i, i ≤ k → k < i + fuel →
      connectLoop oracle fuel i = (k + 1 - i, k - i, true) := by
  intro fuel
  induction fuel with
  | zero => intro i h1 h2; omega
  | succ n ih =>
    intro i h1 h2
    by_cases hik : i = k
    · subst hik
      simp [connectLoop, hks]
    · have hfalse : oracle i = false := hk i (by omega)
      simp [connectLoop, hfalse, ih (i + 1) (by omega) (by omega)]
      omega

/-- C5: for every `maxRetries = n ≥ 1`, `connect(n)` against a peer that
never accepts performs exactly `n` attempts, reports exactly one failure
per attempt, returns normally, and leaves the device with
`connected = false`; and if the first successful attempt is attempt `k`
(0-based, `k < n`), the loop stops early after `k + 1` attempts with
`connected = true`. -/
theorem connect_retry_bound :
    (∀ n : Nat, 1 ≤ n → lionchief_connect (fun _ => false) n = (n, n, false))
  ∧ (∀ n k : Nat, k < n →
      lionchief_connect (fun i => decide (i = k)) n = (k + 1, k, true)) := by
  constructor
  · intro n _
    exact connectLoop_allFail _ (fun _ => rfl) n 0
  · intro n k hkn
    have h := connectLoop_firstSuccess (fun i => decide (i = k)) k
      (fun j hj => by simp only [decide_eq_false_iff_not]; omega)
      (by simp) n 0 (Nat.zero_le k) (by omega)
    simpa using h

/-- Witness for C5 at the spec's example `maxRetries = 5`: five failed
attempts leave the device disconnected; with the first success at attempt
index 2 the loop stops after 3 attempts. -/
theorem connect_retry_witness :
    lionchief_connect (fun _ => false) 5 = (5, 5, false)
  ∧ lionchief_connect (fun i => decide (i = 2)) 5 = (3, 2, true) :=
  ⟨connect_retry_bound.1 5 (by norm_num), connect_retry_bound.2 5 2 (by norm_num)⟩

/-! ## The `_thread` attribute (C10) -/

theorem btle_stop_thread (a : Bool) (st : DeviceState) :
    (btle_stop a st).thread = st.thread := by
  unfold btle_stop
  split <;> rfl

theorem char_write_snd_thread (c : Bool) (h : Nat) (v : List Nat) (w : Bool)
    (st : DeviceState) : ((char_write c h v w st).2).thread = st.thread := by
  unfold char_write
  split
  · split <;> rfl
  · rfl

theorem btle_connect_snd_thread (s a : Bool) (st : DeviceState) :
    ((btle_connect s a st).2).thread = st.thread := by
  unfold btle_connect
  split
  · dsimp only
    split
    · rfl
    · split <;> rfl
  · exact btle_stop_thread a st

theorem btle_expect_snd_thread (lines : List SessLine) (st : DeviceState) :
    ((btle_expect lines st).2.2).thread = st.thread := by
  unfold btle_expect
  split <;> rfl

theorem subscribe_snd_thread (h : Nat) (cb : Option Nat) (t : Int)
    (st : DeviceState) : ((subscribe h cb t st).2).thread = st.thread := by
  unfold subscribe
  split <;> rfl

theorem writeThenRecord_snd_thread (c : Bool) (control handle : Nat)
    (value : List Nat) (st1 : DeviceState) :
    ((writeThenRecord c control handle value st1).2).thread = st1.thread := by
  unfold writeThenRecord
  rcases hcw : char_write c control value true st1 with ⟨e, st2⟩
  have h2 : st2.thread = st1.thread := by
    have := char_write_snd_thread c control value true st1
    rw [hcw] at this
    exact this
  cases e <;> simp only [] <;> exact h2

theorem subscribe_fixed_snd_thread (c : Bool) (h : Nat) (cb : Option Nat)
    (t : Int) (st : DeviceState) :
    ((subscribe_fixed c h cb t st).2).thread = st.thread := by
  rcases cb with _ | cbv
  all_goals
    simp only [subscribe_fixed]
  all_goals
    repeat' split
  all_goals
    first
      | rfl
      | ((rw [writeThenRecord_snd_thread]) <;> rfl)

theorem unsubscribe_snd_thread (c : Bool) (h : Nat) (cb : Option Nat)
    (st : DeviceState) : ((unsubscribe c h cb st).2).thread = st.thread := by
  rcases cb with _ | cbv
  all_goals
    simp only [unsubscribe]
  all_goals
    repeat' split
  all_goals
    first
      | rfl
      | ((rw [writeThenRecord_snd_thread]) <;> rfl)

/-- One invocation of a modelled `BTLEDevice` method, as a state
transformer (errors discarded, post-state kept). -/
inductive BTOp where
  | connOp (success conAlive : Bool)
  | stopOp (conAlive : Bool)
  | expectOp (lines : List SessLine)
  | subscribeOp (handle : Nat) (cb : Option Nat) (t : Int)
  | subscribeFixedOp (confirmOk : Bool) (handle : Nat) (cb : Option Nat) (t : Int)
  | unsubscribeOp (confirmOk : Bool) (handle : Nat) (cb : Option Nat)
  | charWriteOp (confirmOk : Bool) (handle : Nat) (v : List Nat) (wait : Bool)

def applyOp (op : BTOp) (st : DeviceState) : DeviceState :=
  match op with
  | .connOp s a => (btle_connect s a st).2
  | .stopOp a => btle_stop a st
  | .expectOp lines => (btle_expect lines st).2.2
  | .subscribeOp h cb t => (subscribe h cb t st).2
  | .subscribeFixedOp c h cb t => (subscribe_fixed c h cb t st).2
  | .unsubscribeOp c h cb => (unsubscribe c h cb st).2
  | .charWriteOp c h v w => (char_write c h v w st).2

/-- Any sequence of modelled method invocations, run from a state. -/
def runOps (ops : List BTOp) (st : DeviceState) : DeviceState :=
  ops.foldl (fun s op => applyOp op s) st

theorem applyOp_thread (op : BTOp) (st : DeviceState) :
    (applyOp op st).thread = st.thread := by
  cases op with
  | connOp s a => exact btle_connect_snd_thread s a st
  | stopOp a => exact btle_stop_thread a st
  | expectOp lines => exact btle_expect_snd_thread lines st
  | subscribeOp h cb t => exact subscribe_snd_thread h cb t st
  | subscribeFixedOp c h cb t => exact subscribe_fixed_snd_thread c h cb t st
  | unsubscribeOp c h cb => exact unsubscribe_snd_thread c h cb st
  | charWriteOp c h v w => exact char_write_snd_thread c h v w st

theorem runOps_thread (ops : List BTOp) (st : DeviceState) :
    (runOps ops st).thread = st.thread := by
  induction ops generalizing st with
  | nil => rfl
  | cons op rest ih =>
    show (runOps rest (applyOp op st)).thread = st.thread
    rw [ih (applyOp op st), applyOp_thread]

/-- C10: `_thread` is `None` after construction and stays `None` across
every modelled method invocation (the constructor starts the listener via a
local variable, bluetooth.py lines 90-92, and nothing ever assigns
`self._thread`); consequently, on any reachable state whose `_running` flag
is false (e.g. after `stop()`), a `connect()` whose session matches the
success pattern reaches `self._thread.run()` and fails with
`AttributeError` — an error that is not `NotConnectedError`. -/
theorem thread_never_assigned :
    initState.thread = none
  ∧ (∀ ops : List BTOp, (runOps ops initState).thread = none)
  ∧ (∀ ops : List BTOp, (runOps ops initState).running = false →
      (btle_connect true true (runOps ops initState)).1 = some PyError.attributeError)
  ∧ PyError.attributeError ≠ PyError.notConnected := by
  refine ⟨rfl, ?_, ?_, by decide⟩
  · intro ops
    rw [runOps_thread]
    rfl
  · intro ops hrun
    have hth : (runOps ops initState).thread = none := by rw [runOps_thread]; rfl
    simp [btle_connect, hrun, hth]

/-- Witness for C10 at the concrete history `[stop()]`: the flag `_running`
is then false and a successful `connect()` raises `AttributeError`. -/
theorem thread_never_assigned_witness :
    (runOps [BTOp.stopOp true] initState).running = false
  ∧ (btle_connect true true (runOps [BTOp.stopOp true] initState)).1 =
      some PyError.attributeError :=
  ⟨by decide, thread_never_assigned.2.2.1 [BTOp.stopOp true] (by decide)⟩
